import Mathlib

/-!
Verification of the parsing / normalization / eligibility layer of the
procurement-ingestion repository (`src/dags/preprocessor.py`, classes
`QualificationParser` and `DataNormalizer`, and the record assembly in
`BiddingCaseProcessor.process_csv_data` / `normalize_basic_data`).

The Python code is shallowly embedded over `List Char` / `String`:

* Python `str` values are `String` (`List Char` internally); a pandas cell
  that may be `NaN`/missing is `Option String` (`none` models both a missing
  column and a `NaN` value, which the source always guards with `pd.isna`).
* Python `float` results of `normalize_price` are modelled as `ℚ`; every
  value reached by the claims (integer yen amounts, fixed confidence
  constants) is exactly representable in binary64, so no rounding behaviour
  is lost for the properties proved here.
* `re` patterns are embedded as dedicated matchers.  Each matcher's
  equivalence with the backtracking semantics of its concrete pattern is
  argued in a comment at its definition; none of the patterns used by the
  source can backtrack into a shorter repetition (each greedy/lazy
  repetition is followed by an element its own character class rejects), so
  maximal-run (for greedy) / minimal-scan (for lazy) consumption is exact.
* `re`'s `\d` class (all Unicode decimal digits) is modelled by its ASCII
  and fullwidth members, the only digits occurring in this domain; `\s`
  and `str.strip`/`str.isspace` use the full CPython whitespace set.
-/

namespace ProcurementSpec

/-- CPython whitespace (`str.isspace`, `str.strip` default, and `re` `\s`
for `str` patterns): ASCII whitespace `\t\n\v\f\r` and space, the C1
controls `\x1c`–`\x1f` and `\x85`, NBSP, and the Unicode `Zs`/line/paragraph
separators (U+1680, U+2000–U+200A, U+2028, U+2029, U+202F, U+205F, and the
ideographic space U+3000). -/
def pyIsSpace (c : Char) : Bool :=
  decide (c.toNat = 0x20 ∨ (0x9 ≤ c.toNat ∧ c.toNat ≤ 0xd) ∨
    (0x1c ≤ c.toNat ∧ c.toNat ≤ 0x1f) ∨ c.toNat = 0x85 ∨ c.toNat = 0xa0 ∨
    c.toNat = 0x1680 ∨ (0x2000 ≤ c.toNat ∧ c.toNat ≤ 0x200a) ∨
    c.toNat = 0x2028 ∨ c.toNat = 0x2029 ∨ c.toNat = 0x202f ∨
    c.toNat = 0x205f ∨ c.toNat = 0x3000)

/-- `re` `\d` (Unicode decimal digit), restricted to the ASCII digits and the
fullwidth digits `０`–`９` (U+FF10–U+FF19) — the only decimal digits the
repository's Japanese procurement data and the spec's examples contain. -/
def pyIsDigit (c : Char) : Bool :=
  decide ((0x30 ≤ c.toNat ∧ c.toNat ≤ 0x39) ∨
    (0xff10 ≤ c.toNat ∧ c.toNat ≤ 0xff19))

/-- Numeric value of a digit accepted by `pyIsDigit`. -/
def digitVal (c : Char) : Nat :=
  if 0x30 ≤ c.toNat ∧ c.toNat ≤ 0x39 then c.toNat - 0x30 else c.toNat - 0xff10

/-- `int(...)` on a nonempty all-digit group captured by a date pattern. -/
def natOfDigits (cs : List Char) : Nat :=
  cs.foldl (fun acc c => acc * 10 + digitVal c) 0

/-- Python `str.strip()` (no argument): drop leading and trailing
whitespace. -/
def pyStrip (cs : List Char) : List Char :=
  ((cs.dropWhile pyIsSpace).reverse.dropWhile pyIsSpace).reverse

/-- Python `str.split(sep)` for a one-character separator: split at every
occurrence, keeping empty pieces (`"".split(c) == [""]`). -/
def splitOnChar (sep : Char) : List Char → List (List Char)
  | [] => [[]]
  | c :: rest =>
    let r := splitOnChar sep rest
    if c = sep then [] :: r
    else
      match r with
      | [] => [[c]]
      | piece :: pieces => (c :: piece) :: pieces

/-- Python `str.replace(old, '')` for a one-character `old`: remove every
occurrence. -/
def removeChar (old : Char) (cs : List Char) : List Char :=
  cs.filter (fun c => ¬ c = old)

/-- Python `str.replace(old, new)` for one-character `old`/`new`. -/
def replaceChar (old new : Char) (cs : List Char) : List Char :=
  cs.map (fun c => if c = old then new else c)

/-- `re.sub(r'\s+', ' ', text)`, helper: `inRun` records whether the previous
character belonged to a whitespace run already emitted as `' '`. -/
def collapseWsAux : Bool → List Char → List Char
  | _, [] => []
  | inRun, c :: rest =>
    if pyIsSpace c then
      if inRun then collapseWsAux true rest
      else ' ' :: collapseWsAux true rest
    else c :: collapseWsAux false rest

/-- `re.sub(r'\s+', ' ', text)`: replace every maximal whitespace run by a
single ASCII space. -/
def collapseWs (cs : List Char) : List Char :=
  collapseWsAux false cs

/-- Split a maximal digit run off the front (`takeWhile`/`dropWhile` pair). -/
def splitDigits (cs : List Char) : List Char × List Char :=
  (cs.takeWhile pyIsDigit, cs.dropWhile pyIsDigit)

/-!
## `DataNormalizer.normalize_date` (`src/dags/preprocessor.py:919-947`)

The five patterns are tried in source order with `re.match` (anchored at the
start of the stripped string, a trailing remainder being ignored); a pattern
that matches syntactically but yields an invalid `datetime` is skipped
(`except ValueError: continue`).

Each pattern is a rigid sequence of digit runs and literal separators, so
its backtracking semantics collapse to a deterministic scan:

* a non-final `\d{n}`/`\d{1,2}` is followed by a separator that rejects a
  digit, so it must consume the entire maximal digit run, whose length must
  lie in the quantifier's range (`dFull`);
* a final `\d{1,2}`/`\d{4}` consumes the first `min(cap, run)` digits of the
  run and ignores the rest of the string (`dPre`).
-/

/-- One element of an embedded date regex (see the section comment for how
the two digit forms capture the greedy semantics exactly). -/
inductive PatItem where
  | lit : Char → PatItem
  | dFull : Nat → Nat → PatItem
  | dPre : Nat → Nat → PatItem
deriving DecidableEq

/-- Run a rigid pattern against the start of the input (`re.match`),
returning the captured digit groups. -/
def runItems : List PatItem → List Char → Option (List (List Char))
  | [], _ => some []
  | PatItem.lit c :: items, cs =>
    match cs with
    | [] => none
    | x :: xs => if x = c then runItems items xs else none
  | PatItem.dFull lo hi :: items, cs =>
    let run := cs.takeWhile pyIsDigit
    if lo ≤ run.length ∧ run.length ≤ hi then
      (runItems items (cs.dropWhile pyIsDigit)).map (fun gs => run :: gs)
    else none
  | PatItem.dPre req cap :: items, cs =>
    let run := cs.takeWhile pyIsDigit
    if req ≤ run.length then
      (runItems items (run.drop cap ++ cs.dropWhile pyIsDigit)).map
        (fun gs => run.take cap :: gs)
    else none

/-- `r'(\d{4})-(\d{1,2})-(\d{1,2})'` -/
def datePat1 : List PatItem :=
  [PatItem.dFull 4 4, PatItem.lit '-', PatItem.dFull 1 2, PatItem.lit '-',
   PatItem.dPre 1 2]

/-- `r'(\d{4})/(\d{1,2})/(\d{1,2})'` -/
def datePat2 : List PatItem :=
  [PatItem.dFull 4 4, PatItem.lit '/', PatItem.dFull 1 2, PatItem.lit '/',
   PatItem.dPre 1 2]

/-- `r'(\d{1,2})/(\d{1,2})/(\d{4})'` -/
def datePat3 : List PatItem :=
  [PatItem.dFull 1 2, PatItem.lit '/', PatItem.dFull 1 2, PatItem.lit '/',
   PatItem.dPre 4 4]

/-- `r'(\d{1,2})-(\d{1,2})-(\d{4})'` -/
def datePat4 : List PatItem :=
  [PatItem.dFull 1 2, PatItem.lit '-', PatItem.dFull 1 2, PatItem.lit '-',
   PatItem.dPre 4 4]

/-- `r'(\d{4})年(\d{1,2})月(\d{1,2})日'` -/
def datePat5 : List PatItem :=
  [PatItem.dFull 4 4, PatItem.lit '年', PatItem.dFull 1 2, PatItem.lit '月',
   PatItem.dFull 1 2, PatItem.lit '日']

/-- Gregorian leap year, as implemented by `datetime`. -/
def isLeapYear (y : Nat) : Bool :=
  decide ((y % 4 = 0 ∧ ¬ y % 100 = 0) ∨ y % 400 = 0)

def daysInMonth (y m : Nat) : Nat :=
  if m = 2 then (if isLeapYear y then 29 else 28)
  else if m = 4 ∨ m = 6 ∨ m = 9 ∨ m = 11 then 30
  else 31

/-- `datetime(year, month, day)` succeeds: `MINYEAR = 1 ≤ year ≤ 9999 =
MAXYEAR`, month in 1..12, day in 1..days-in-month. -/
def isValidDate (y m d : Nat) : Bool :=
  decide (1 ≤ y ∧ y ≤ 9999 ∧ 1 ≤ m ∧ m ≤ 12 ∧ 1 ≤ d ∧ d ≤ daysInMonth y m)

/-- Zero-pad to two digits (`%m` / `%d`). -/
def pad2 (n : Nat) : String :=
  if n < 10 then "0" ++ toString n else toString n

/-- `strftime('%Y-%m-%d')`.  glibc prints `%Y` without padding, so the year
appears unpadded (only reachable with a year below 1000, i.e. a `\d{4}`
group with leading zeros). -/
def fmtDate (y m d : Nat) : String :=
  toString y ++ "-" ++ pad2 m ++ "-" ++ pad2 d

/-- The per-pattern body of the source loop: on a syntactic match, split
the three groups into year/month/day by testing whether the first group has
four digits (`len(groups[0]) == 4`), build the `datetime`, and format it;
a `ValueError` (invalid date) yields `none` so that the loop continues. -/
def attemptDate (items : List PatItem) (cs : List Char) : Option String :=
  match runItems items cs with
  | some [g1, g2, g3] =>
    let gy := if g1.length = 4 then g1 else g3
    let gm := if g1.length = 4 then g2 else g1
    let gd := if g1.length = 4 then g3 else g2
    let y := natOfDigits gy
    let m := natOfDigits gm
    let d := natOfDigits gd
    if isValidDate y m d then some (fmtDate y m d) else none
  | _ => none

/-- The `for pattern in date_patterns` loop: first pattern that matches
syntactically and builds a valid date wins. -/
def tryDatePatterns (cs : List Char) : Option String :=
  match attemptDate datePat1 cs with
  | some r => some r
  | none =>
    match attemptDate datePat2 cs with
    | some r => some r
    | none =>
      match attemptDate datePat3 cs with
      | some r => some r
      | none =>
        match attemptDate datePat4 cs with
        | some r => some r
        | none => attemptDate datePat5 cs

/-- `DataNormalizer.normalize_date`: `None`/`NaN`/empty input short-circuits
to `None`; otherwise the input is stripped and the pattern loop runs. -/
def normalize_date (date_str : Option String) : Option String :=
  match date_str with
  | none => none
  | some s => if s.data = [] then none else tryDatePatterns (pyStrip s.data)

/-!
## `DataNormalizer.normalize_price` (`src/dags/preprocessor.py:895-917`)
-/

/-- `re.findall(r'\d+(?:\.\d+)?', s)[0]` followed by `float(...)`: the first
(leftmost) maximal digit run, with a fractional part when a `'.'` and at
least one digit immediately follow.  `float` on such a token never raises,
and is modelled exactly over `ℚ`. -/
def firstNumber : List Char → Option ℚ
  | [] => none
  | c :: rest =>
    if pyIsDigit c then
      let run := (c :: rest).takeWhile pyIsDigit
      match (c :: rest).dropWhile pyIsDigit with
      | '.' :: r2 =>
        let frac := r2.takeWhile pyIsDigit
        if frac = [] then some (natOfDigits run)
        else some ((natOfDigits run : ℚ) + (natOfDigits frac : ℚ) / 10 ^ frac.length)
      | _ => some ((natOfDigits run : ℚ))
    else firstNumber rest

/-- `DataNormalizer.normalize_price`: strip `','`, `'円'`, `'￥'`; pick the
multiplier from the first of `'万'` (×10000) / `'千'` (×1000) present,
removing that character; scale the first number found, or `None`. -/
def normalize_price (price_str : Option String) : Option ℚ :=
  match price_str with
  | none => none
  | some s =>
    if s.data = [] then none
    else
      let s1 := removeChar '￥' (removeChar '円' (removeChar ',' s.data))
      if '万' ∈ s1 then (firstNumber (removeChar '万' s1)).map (fun q => q * 10000)
      else if '千' ∈ s1 then (firstNumber (removeChar '千' s1)).map (fun q => q * 1000)
      else firstNumber s1

/-!
## `DataNormalizer` business types (`src/dags/preprocessor.py:870-1010`)
-/

/-- `self.business_code_map`, in insertion (= iteration) order. -/
def business_code_map : List (String × String) :=
  [("船舶・航空機関連", "B01"), ("保守・点検・整備", "B02"),
   ("気象・環境・衛生関連サービス", "B03"), ("建設・工事", "B04"),
   ("ITサービス", "B05"), ("システム開発", "B05"), ("情報処理", "B05"),
   ("コンサルタント", "B06"), ("調査・検査", "B06"), ("調査・企画", "B06"),
   ("物品・備品", "B07"), ("機器・設備", "B07"), ("役務", "B08"),
   ("サービス", "B08"), ("測量", "B09"), ("医療・介護・福祉関連物品", "B10"),
   ("情報・通信関連物品", "B11"), ("事務機器・パソコン関連機器", "B12"),
   ("リース・レンタル・賃貸借", "B13"), ("日用品", "B14"),
   ("自動車・バス・鉄道関連", "B15"), ("その他", "B99")]

/-- Python's substring test `needle in hay`. -/
def containsSub (needle : List Char) : List Char → Bool
  | [] => needle.isEmpty
  | c :: rest => needle.isPrefixOf (c :: rest) || containsSub needle rest

/-- The inner lookup loop shared by both business-type functions: first map
entry whose name occurs in the line. -/
def findBusinessCode (line : List Char) : Option (String × String) :=
  business_code_map.find? (fun p => containsSub p.1.data line)

/-- The non-blank stripped lines of a business-type cell. -/
def businessLines (cs : List Char) : List (List Char) :=
  ((splitOnChar '\n' cs).map pyStrip).filter (fun l => ¬ l = [])

/-- Per-line code as computed by `normalize_business_types`'s loop body. -/
def lineCode (l : List Char) : String :=
  match findBusinessCode l with
  | some p => p.2
  | none => "B99"

/-- The `business_types` list built by the loop of
`normalize_business_types`, before the final `list(set(business_types))`. -/
def normalize_business_types_pre (cs : List Char) : List String :=
  (businessLines cs).map lineCode

/-- `DataNormalizer.normalize_business_types`.  The source returns
`list(set(business_types))`: a Python `set` of strings iterates in a
hash-seed-dependent, unspecified order, so the function's result is modelled
as the finite set of codes — the only input-determined content of that
return value. -/
def normalize_business_types (business_str : Option String) : Finset String :=
  match business_str with
  | none => ∅
  | some s =>
    if s.data = [] then ∅ else (normalize_business_types_pre s.data).toFinset

/-- Per-line (name, code) pair as computed by
`extract_business_types_with_codes`'s loop body: a matching map entry
contributes its own name, the `"B99"` default keeps the line text. -/
def lineNameCode (l : List Char) : String × String :=
  match findBusinessCode l with
  | some p => p
  | none => (⟨l⟩, "B99")

/-- The `seen_codes` dedup loop: keep a pair when its code is unseen. -/
def dedupBySeen (seen : List String) : List (String × String) → List (String × String)
  | [] => []
  | p :: rest =>
    if p.2 ∈ seen then dedupBySeen seen rest
    else p :: dedupBySeen (p.2 :: seen) rest

/-- `DataNormalizer.extract_business_types_with_codes`: the parallel
name/code lists, deduplicated by code preserving first occurrence.  (The
source threads two parallel lists plus a `seen_codes` set through one loop;
it is embedded as the same loop over the zipped pairs.) -/
def extract_business_types_with_codes (business_str : Option String) :
    List String × List String :=
  match business_str with
  | none => ([], [])
  | some s =>
    if s.data = [] then ([], [])
    else
      let uniq := dedupBySeen [] ((businessLines s.data).map lineNameCode)
      (uniq.map (fun p => p.1), uniq.map (fun p => p.2))

/-!
## `DataNormalizer.extract_prefecture` (`src/dags/preprocessor.py:1012-1033`)
-/

/-- The eight regional alternation patterns, each a list of prefecture-name
literals in source order. -/
def prefecture_patterns : List (List String) :=
  [["北海道"],
   ["青森県", "岩手県", "宮城県", "秋田県", "山形県", "福島県"],
   ["茨城県", "栃木県", "群馬県", "埼玉県", "千葉県", "東京都", "神奈川県"],
   ["新潟県", "富山県", "石川県", "福井県", "山梨県", "長野県", "岐阜県",
    "静岡県", "愛知県"],
   ["三重県", "滋賀県", "京都府", "大阪府", "兵庫県", "奈良県", "和歌山県"],
   ["鳥取県", "島根県", "岡山県", "広島県", "山口県"],
   ["徳島県", "香川県", "愛媛県", "高知県"],
   ["福岡県", "佐賀県", "長崎県", "熊本県", "大分県", "宮崎県", "鹿児島県",
    "沖縄県"]]

/-- `re.search` for an alternation of literals: leftmost start position,
alternatives tried in order at each position. -/
def searchAlts (names : List String) : List Char → Option String
  | [] => none
  | c :: rest =>
    match names.find? (fun n => n.data.isPrefixOf (c :: rest)) with
    | some n => some n
    | none => searchAlts names rest

/-- The `for pattern in prefecture_patterns` loop. -/
def firstPrefecture : List (List String) → List Char → Option String
  | [], _ => none
  | g :: gs, cs =>
    match searchAlts g cs with
    | some n => some n
    | none => firstPrefecture gs cs

/-- `DataNormalizer.extract_prefecture`. -/
def extract_prefecture (location_str : Option String) : Option String :=
  match location_str with
  | none => none
  | some s =>
    if s.data = [] then none else firstPrefecture prefecture_patterns s.data

/-!
## `QualificationParser` (`src/dags/preprocessor.py:602-863`)

The six patterns of `self.qualification_patterns` are applied with
`re.search`.  Their backtracking semantics reduce to deterministic scans:

* `\s+` is always followed by `[^\s]` or by an alternation whose branches
  all begin with a non-space character, and `[^\s]+` is always followed by
  `\s`, so both consume exactly their maximal run;
* `.+?` / `.*?` are lazy: the shortest consumption (of non-newline
  characters) that lets the entire remainder of the pattern succeed wins,
  longer consumptions being tried in increasing order — implemented by
  `lazyUpto` / `lazyDotsLit`, whose scan order is exactly that of the
  engine;
* alternations try their branches left to right at each start position,
  and `re.search` tries start positions left to right.
-/

/-- `([ABCD]|ランク無し|ランク不明)`: prefix alternation, branches in source
order. -/
def levelAlt (cs : List Char) : Option (List Char) :=
  match cs with
  | [] => none
  | c :: _ =>
    if c = 'A' ∨ c = 'B' ∨ c = 'C' ∨ c = 'D' then some [c]
    else if "ランク無し".data.isPrefixOf cs then some "ランク無し".data
    else if "ランク不明".data.isPrefixOf cs then some "ランク不明".data
    else none

/-- `\s+([^\s]+)\s+([ABCD]|ランク無し|ランク不明)`: whitespace run, the
category token (maximal non-space run), whitespace run, level token. -/
def wsTokLevel (cs : List Char) : Option (List Char × List Char) :=
  match cs with
  | [] => none
  | c :: _ =>
    if pyIsSpace c then
      let rest1 := cs.dropWhile pyIsSpace
      let tok := rest1.takeWhile (fun x => ¬ pyIsSpace x)
      let rest2 := rest1.dropWhile (fun x => ¬ pyIsSpace x)
      if tok = [] then none
      else
        match rest2 with
        | [] => none
        | _ :: _ =>
          (levelAlt (rest2.dropWhile pyIsSpace)).map (fun lv => (tok, lv))
    else none

/-- `.+?SFX` followed by continuation `k`: consume at least one non-newline
character, then the literal suffix, then the remainder; shorter dot runs are
preferred, a longer run is tried when `k` fails (engine backtracking).
`acc` holds the dots consumed so far. -/
def lazyUpto {α : Type} (sfx : List Char) (k : List Char → Option α)
    (acc : List Char) : List Char → Option (List Char × α)
  | [] => none
  | c :: rest =>
    if c = '\n' then none
    else
      if sfx.isPrefixOf rest then
        match k (rest.drop sfx.length) with
        | some a => some (acc ++ [c] ++ sfx, a)
        | none => lazyUpto sfx k (acc ++ [c]) rest
      else lazyUpto sfx k (acc ++ [c]) rest

/-- `.*?LIT` followed by continuation `k`: like `lazyUpto` but zero dots are
allowed. -/
def lazyDotsLit {α : Type} (lit : List Char) (k : List Char → Option α) :
    List Char → Option α
  | [] => if lit.isPrefixOf ([] : List Char) then k [] else none
  | c :: rest =>
    match
      (if lit.isPrefixOf (c :: rest) then k ((c :: rest).drop lit.length)
      else none) with
    | some a => some a
    | none => if c = '\n' then none else lazyDotsLit lit k rest

/-- An organization alternation `(.+?S₁|.+?S₂|…)` followed by `k`, attempted
at one start position: branches in order. -/
def orgAlt {α : Type} (sfxs : List (List Char)) (k : List Char → Option α)
    (cs : List Char) : Option (List Char × α) :=
  match sfxs with
  | [] => none
  | sfx :: more =>
    match lazyUpto sfx k [] cs with
    | some r => some r
    | none => orgAlt more k cs

/-- `re.search` for an organization pattern: start positions left to
right. -/
def searchOrg {α : Type} (sfxs : List (List Char)) (k : List Char → Option α) :
    List Char → Option (List Char × α)
  | [] => none
  | c :: rest =>
    match orgAlt sfxs k (c :: rest) with
    | some r => some r
    | none => searchOrg sfxs k rest

/-- `re.search(r'全省庁統一資格\s+([^\s]+)\s+([ABCD]|ランク無し|ランク不明)', line)`,
returning (category, level) groups. -/
def searchUnified : List Char → Option (List Char × List Char)
  | [] => none
  | c :: rest =>
    match
      (if "全省庁統一資格".data.isPrefixOf (c :: rest) then
        wsTokLevel ((c :: rest).drop "全省庁統一資格".data.length)
      else none) with
    | some r => some r
    | none => searchUnified rest

/-- `r'(.+?開発局|.+?地方整備局).*?競争入札参加資格\s+([^\s]+)\s+(…)'` -/
def searchRegional (cs : List Char) :
    Option (List Char × (List Char × List Char)) :=
  searchOrg ["開発局".data, "地方整備局".data]
    (lazyDotsLit "競争入札参加資格".data wsTokLevel) cs

/-- `r'(.+?県|.+?都|.+?府|.+?市|.+?町|.+?村).*?入札参加資格\s+([^\s]+)\s+(…)'` -/
def searchLocalGov (cs : List Char) :
    Option (List Char × (List Char × List Char)) :=
  searchOrg ["県".data, "都".data, "府".data, "市".data, "町".data, "村".data]
    (lazyDotsLit "入札参加資格".data wsTokLevel) cs

/-- `r'(.+?省|.+?庁).*?競争.*?参加資格\s+([^\s]+)\s+(…)'` -/
def searchMinistry (cs : List Char) :
    Option (List Char × (List Char × List Char)) :=
  searchOrg ["省".data, "庁".data]
    (lazyDotsLit "競争".data (lazyDotsLit "参加資格".data wsTokLevel)) cs

/-- `r'(.+?協会|.+?組合|.+?連盟).*?資格'`: only the organization group. -/
def searchIndustry (cs : List Char) : Option (List Char) :=
  (searchOrg ["協会".data, "組合".data, "連盟".data]
    (lazyDotsLit "資格".data (fun _ => some ())) cs).map (fun p => p.1)

/-- `self.category_mapping`. -/
def category_mapping : List (String × String) :=
  [("物品の製造・販売・買受系", "manufacturing_sales"),
   ("物品の製造・販売・買受け系", "manufacturing_sales"),
   ("物品の製造", "manufacturing"), ("物品の販売", "sales"),
   ("物品の買受け", "procurement"), ("役務の提供系", "service_provision"),
   ("役務の提供", "service_provision"), ("建設工事", "construction"),
   ("建設関連業務", "construction_related"), ("コンサルタント", "consulting"),
   ("設計", "design"), ("調査", "research"), ("測量", "surveying"),
   ("種類不明", "unknown_category")]

/-- `self.level_mapping`. -/
def level_mapping : List (String × String) :=
  [("A", "level_a"), ("B", "level_b"), ("C", "level_c"), ("D", "level_d"),
   ("ランク無し", "no_rank"), ("ランク不明", "unknown_rank")]

/-- `dict.get(key, default)`. -/
def lookupDefault (m : List (String × String)) (k d : String) : String :=
  match m.find? (fun p => p.1 == k) with
  | some p => p.2
  | none => d

/-- One parsed qualification clause (the dict built by
`parse_qualification_line`).  `confidence` is the `float` literal of the
producing rule, read as the exact rational it denotes in the source text. -/
structure Requirement where
  type : String
  organization : Option String
  category : Option String
  category_normalized : Option String
  level : Option String
  level_normalized : Option String
  raw_text : String
  line_number : Nat
  confidence : ℚ
deriving DecidableEq

/-- `QualificationParser.parse_qualification_line`: the six patterns in the
source's `if`-chain order (no-qualification, unified, regional bureau,
local government, ministry, industry association), then the unconditional
`unknown_qualification` fallback — so the function is total even though its
Python annotation is `Optional`. -/
def parse_qualification_line (line : String) (line_num : Nat) : Requirement :=
  let cs := line.data
  if containsSub "資格不要".data cs then
    ⟨"no_qualification_required", none, none, none, none, none, line,
      line_num, 1⟩
  else
    match searchUnified cs with
    | some (cat, lv) =>
      let category : String := ⟨pyStrip cat⟩
      let level : String := ⟨pyStrip lv⟩
      ⟨"unified_qualification", some "全省庁統一資格", some category,
        some (lookupDefault category_mapping category "other"), some level,
        some (lookupDefault level_mapping level "unknown"), line, line_num,
        95 / 100⟩
    | none =>
      match searchRegional cs with
      | some (org, cat, lv) =>
        let organization : String := ⟨pyStrip org⟩
        let category : String := ⟨pyStrip cat⟩
        let level : String := ⟨pyStrip lv⟩
        ⟨"regional_bureau_qualification", some organization, some category,
          some (lookupDefault category_mapping category "other"), some level,
          some (lookupDefault level_mapping level "unknown"), line, line_num,
          9 / 10⟩
      | none =>
        match searchLocalGov cs with
        | some (org, cat, lv) =>
          let organization : String := ⟨pyStrip org⟩
          let category : String := ⟨pyStrip cat⟩
          let level : String := ⟨pyStrip lv⟩
          ⟨"local_government_qualification", some organization, some category,
            some (lookupDefault category_mapping category "other"),
            some level, some (lookupDefault level_mapping level "unknown"),
            line, line_num, 85 / 100⟩
        | none =>
          match searchMinistry cs with
          | some (org, cat, lv) =>
            let organization : String := ⟨pyStrip org⟩
            let category : String := ⟨pyStrip cat⟩
            let level : String := ⟨pyStrip lv⟩
            ⟨"ministry_qualification", some organization, some category,
              some (lookupDefault category_mapping category "other"),
              some level, some (lookupDefault level_mapping level "unknown"),
              line, line_num, 8 / 10⟩
          | none =>
            match searchIndustry cs with
            | some org =>
              ⟨"industry_specific_qualification", some ⟨pyStrip org⟩, none,
                some "industry_specific", none, none, line, line_num, 7 / 10⟩
            | none =>
              ⟨"unknown_qualification", none, none, some "unknown", none,
                none, line, line_num, 1 / 10⟩

/-- `QualificationParser.normalize_qualification_text`: fullwidth space to
space, strip, collapse whitespace runs. -/
def normalize_qualification_text (text : String) : String :=
  if text.data = [] then ""
  else ⟨collapseWs (pyStrip (replaceChar '　' ' ' text.data))⟩

/-- The `for line_num, line in enumerate(lines, 1)` loop of
`extract_qualifications`: strip each line, skip blanks, parse the rest
(`parse_qualification_line` always returns a truthy dict, so the `if
qualification:` guard always appends). -/
def extractLoop (n : Nat) : List (List Char) → List Requirement
  | [] => []
  | l :: rest =>
    let l' := pyStrip l
    if l' = [] then extractLoop (n + 1) rest
    else parse_qualification_line ⟨l'⟩ n :: extractLoop (n + 1) rest

/-- `QualificationParser.extract_qualifications`. -/
def extract_qualifications (qualification_text : Option String) :
    List Requirement :=
  match qualification_text with
  | none => []
  | some s =>
    if s.data = [] then []
    else extractLoop 1 (splitOnChar '\n' (normalize_qualification_text s).data)

/-- Round half to even at two decimals, the value CPython's `round(x, 2)`
denotes; the binary64 representation error of the mean of confidence
constants is immaterial to every claim and is not modelled. -/
def roundQ2 (q : ℚ) : ℚ :=
  let x := q * 100
  let f := ⌊x⌋
  let r := x - f
  ((if r < 1 / 2 then f
    else if 1 / 2 < r then f + 1
    else if f % 2 = 0 then f else f + 1 : ℤ) : ℚ) / 100

/-- The dict built by `get_qualification_summary`.  `required_categories`
and `required_levels` are produced by `list(set(...))`, whose iteration
order is unspecified; they are modelled as the finite sets. -/
structure QualificationSummary where
  total_requirements : Nat
  has_no_qualification_required : Bool
  unified_qualifications : List Requirement
  regional_qualifications : List Requirement
  local_qualifications : List Requirement
  ministry_qualifications : List Requirement
  industry_qualifications : List Requirement
  unknown_qualifications : List Requirement
  required_categories : Finset String
  required_levels : Finset String
  confidence_score : ℚ
deriving DecidableEq

/-- Truthy-and-not-unknown filter of the `required_categories` /
`required_levels` comprehensions (`if q[k] and q[k] != 'unknown'`). -/
def knownCode (o : Option String) : Option String :=
  match o with
  | none => none
  | some c => if c = "" ∨ c = "unknown" then none else some c

/-- `QualificationParser.get_qualification_summary`. -/
def get_qualification_summary (qualifications : List Requirement) :
    QualificationSummary :=
  if qualifications = [] then
    ⟨0, false, [], [], [], [], [], [], ∅, ∅, 0⟩
  else
    { total_requirements := qualifications.length
      has_no_qualification_required :=
        qualifications.any (fun q => q.type == "no_qualification_required")
      unified_qualifications :=
        qualifications.filter (fun q => q.type == "unified_qualification")
      regional_qualifications :=
        qualifications.filter
          (fun q => q.type == "regional_bureau_qualification")
      local_qualifications :=
        qualifications.filter
          (fun q => q.type == "local_government_qualification")
      ministry_qualifications :=
        qualifications.filter (fun q => q.type == "ministry_qualification")
      industry_qualifications :=
        qualifications.filter
          (fun q => q.type == "industry_specific_qualification")
      unknown_qualifications :=
        qualifications.filter (fun q => q.type == "unknown_qualification")
      required_categories :=
        (qualifications.filterMap (fun q => knownCode q.category_normalized)).toFinset
      required_levels :=
        (qualifications.filterMap (fun q => knownCode q.level_normalized)).toFinset
      confidence_score :=
        roundQ2 ((qualifications.map (fun q => q.confidence)).sum /
          qualifications.length) }

/-!
## EligibilityChecker

`process_csv_data` only stubs the verdict (`is_eligible = None`, reason
`"LLM判定待ち"`, empty details, `src/dags/preprocessor.py:1253-1257`); the
deterministic rule engine described by the spec is not part of `src/` (the
decision is delegated to an external LLM call in `llm.py`).  The checker is
therefore modelled from the spec.
-/

/-- Spec §4.3: level codes a small bidder may hold (`D`, no-rank,
rank-unknown), written as the repository's normalized codes. -/
def eligibleLevelCodes : List String := ["level_d", "no_rank", "unknown_rank"]

/-- Spec §4.3: disqualifying level codes (`A`, `B`, `C`). -/
def ineligibleLevelCodes : List String := ["level_a", "level_b", "level_c"]

/-- The spec's `EligibilityVerdict`. -/
structure EligibilityVerdict where
  is_eligible : Bool
  reason : String
  details : List String
deriving DecidableEq

/-- A requirement classified against a code list (absent level codes match
neither list). -/
def hasLevelIn (codes : List String) (r : Requirement) : Bool :=
  match r.level_normalized with
  | some c => codes.contains c
  | none => false

/-- One audit line item (spec §4.3: "✓/✗ organization – category – level"). -/
def renderItem (mark : String) (r : Requirement) : String :=
  mark ++ " " ++ r.organization.getD "" ++ " - " ++ r.category.getD "" ++
    " - " ++ r.level.getD ""

/-- Modelled from the spec: `EligibilityChecker.CheckEligibility` (spec
§4.3) is absent from `src/` — `process_csv_data` stubs the verdict pending
an LLM call — so the decision policy is taken from the spec's words: the
no-qualification marker wins, an empty requirement list is ineligible, and
otherwise requirements are partitioned by level code (absent level codes
skipped), any A/B/C requirement vetoing the case, else any D/no-rank/
rank-unknown requirement granting it, else the parse-failure fallback. -/
def CheckEligibility (requirements : List Requirement)
    (summary : QualificationSummary) : EligibilityVerdict :=
  if summary.has_no_qualification_required then
    ⟨true, "no qualification required",
      ["✓ no qualification required"]⟩
  else if requirements = [] then
    ⟨false, "qualification requirements unknown",
      ["✗ qualification requirements unknown"]⟩
  else
    let ineligibleLevel := requirements.filter (hasLevelIn ineligibleLevelCodes)
    let eligibleLevel := requirements.filter (hasLevelIn eligibleLevelCodes)
    if ¬ ineligibleLevel = [] then
      ⟨false, toString ineligibleLevel.length ++ " disqualifying requirements",
        ineligibleLevel.map (renderItem "✗") ++ eligibleLevel.map (renderItem "✓")⟩
    else if ¬ eligibleLevel = [] then
      ⟨true, toString eligibleLevel.length ++ " satisfied requirements",
        eligibleLevel.map (renderItem "✓")⟩
    else
      ⟨false, "could not parse qualification format",
        ["✗ could not parse qualification format"]⟩

/-!
## Case record assembly (`process_csv_data`, `src/dags/preprocessor.py:
1210-1343`, and `normalize_basic_data`, lines 1388-1411)
-/

/-- One raw CSV row, restricted to the columns the record assembly reads.
Each field is the cell's text, `none` standing for a missing column or a
`NaN` cell (always guarded by `pd.isna` in the source).  Source column
names, in order: `案件ID`, `案件名`, `検索条件名`, `入札形式`, `案件概要URL`,
`機関`, `機関所在地`, `履行/納品場所`, `案件公示日`, `入札日`, `資料等提出日`,
`説明会日`, `落札結果公示日`, `落札日(or 契約締結日)`, `入札資格`, `業種`,
`案件概要`, `案件備考`, `予定価格`, `予定単価`, `落札価格`, `落札単価`,
`落札会社名`, `落札会社住所`, `落札理由`, `落札評点`, `落札結果備考`,
`入札結果詳細`, `不調`, `文書ディレクトリ`, `文書数`, `ダウンロード済み数`,
`文書情報`. -/
structure Row where
  case_id : Option String
  case_name : Option String
  search_condition : Option String
  bidding_format : Option String
  case_url : Option String
  org_name : Option String
  org_location : Option String
  delivery_location : Option String
  announcement_date : Option String
  bidding_date : Option String
  document_submission_date : Option String
  briefing_date : Option String
  award_announcement_date : Option String
  award_date : Option String
  qualification : Option String
  business : Option String
  overview : Option String
  remarks : Option String
  planned_price : Option String
  planned_unit_price : Option String
  award_price : Option String
  award_unit_price : Option String
  winning_company : Option String
  winning_company_address : Option String
  winning_reason : Option String
  winning_score : Option String
  award_remarks : Option String
  bid_result_details : Option String
  unsuccessful_bid : Option String
  document_directory : Option String
  document_count : Option String
  downloaded_count : Option String
  documents_info : Option String
deriving DecidableEq

/-- The dict returned by `normalize_basic_data`. -/
structure NormalizedBasicData where
  announcement_date : Option String
  bidding_date : Option String
  document_submission_date : Option String
  award_announcement_date : Option String
  award_date : Option String
  normalized_price : Option ℚ
  normalized_planned_price : Option ℚ
  normalized_award_price : Option ℚ
  business_types : Finset String
  business_type_names : List String
  business_type_codes : List String
  prefecture : Option String
deriving DecidableEq

/-- `BiddingCaseProcessor.normalize_basic_data`: the award price is
preferred for `normalized_price`, with the planned price as fallback. -/
def normalize_basic_data (row : Row) : NormalizedBasicData :=
  let fallback_price :=
    match normalize_price row.award_price with
    | some p => some p
    | none => normalize_price row.planned_price
  let bt := extract_business_types_with_codes row.business
  { announcement_date := normalize_date row.announcement_date
    bidding_date := normalize_date row.bidding_date
    document_submission_date := normalize_date row.document_submission_date
    award_announcement_date := normalize_date row.award_announcement_date
    award_date := normalize_date row.award_date
    normalized_price := fallback_price
    normalized_planned_price := normalize_price row.planned_price
    normalized_award_price := normalize_price row.award_price
    business_types := normalize_business_types row.business
    business_type_names := bt.1
    business_type_codes := bt.2
    prefecture := extract_prefecture row.org_location }

/-- Python `int(...)` on a cell's text: optional surrounding whitespace and
sign, then a nonempty digit string (`None` models the raised
`ValueError`, which makes `process_csv_data` count the row as failed). -/
def pyIntParse (s : String) : Option Int :=
  match pyStrip s.data with
  | '-' :: ds =>
    if ¬ ds = [] ∧ ds.all pyIsDigit then some (-(natOfDigits ds : ℤ)) else none
  | '+' :: ds =>
    if ¬ ds = [] ∧ ds.all pyIsDigit then some ((natOfDigits ds : ℤ)) else none
  | ds =>
    if ¬ ds = [] ∧ ds.all pyIsDigit then some ((natOfDigits ds : ℤ)) else none

/-- `processed_data['organization']`. -/
structure OrganizationInfo where
  name : Option String
  location : Option String
  prefecture : Option String
  delivery_location : Option String
deriving DecidableEq

/-- `processed_data['schedule']`. -/
structure ScheduleInfo where
  announcement_date : Option String
  bidding_date : Option String
  document_submission_date : Option String
  briefing_date : Option String
  award_announcement_date : Option String
  award_date : Option String
deriving DecidableEq

/-- `processed_data['qualifications']`. -/
structure QualificationsInfo where
  requirements_raw : String
  requirements_parsed : List Requirement
  requirements_summary : QualificationSummary
  business_types_raw : Option String
  business_types_normalized : Finset String
  business_type : List String
  business_type_code : List String
deriving DecidableEq

/-- `processed_data['content']`. -/
structure ContentInfo where
  overview : Option String
  remarks : Option String
deriving DecidableEq

/-- `processed_data['pricing']`. -/
structure PricingInfo where
  planned_price_raw : Option String
  planned_price_normalized : Option ℚ
  planned_unit_price : Option String
  award_price_raw : Option String
  award_price_normalized : Option ℚ
  award_unit_price : Option String
  main_price : Option ℚ
deriving DecidableEq

/-- `processed_data['award_info']`. -/
structure AwardInfo where
  winning_company : Option String
  winning_company_address : Option String
  winning_reason : Option String
  winning_score : Option String
  award_remarks : Option String
  bid_result_details : Option String
  unsuccessful_bid : Option String
deriving DecidableEq

/-- `processed_data['processing_info']`: `processed_at` receives
`datetime.now().isoformat()` at build time. -/
structure ProcessingInfo where
  processed_at : String
  qualification_confidence : ℚ
deriving DecidableEq

/-- `processed_data['eligibility']` — the stub pending the LLM decision. -/
structure EligibilityInfo where
  is_eligible : Option Bool
  reason : String
  details : List String
deriving DecidableEq

/-- `processed_data['documents']`.  `details` carries the raw `文書情報`
JSON text (`none` for a missing/`NaN` cell, which the source maps to `[]`);
the `json.loads` round-trip is opaque to every claim and is modelled as the
carried text. -/
structure DocumentsInfo where
  directory : Option String
  count : Int
  downloaded_count : Int
  details : Option String
deriving DecidableEq

/-- The full `processed_data` dict built per row by `process_csv_data`. -/
structure CaseRecord where
  case_id : Int
  case_name : Option String
  search_condition : Option String
  bidding_format : Option String
  case_url : Option String
  organization : OrganizationInfo
  schedule : ScheduleInfo
  qualifications : QualificationsInfo
  content : ContentInfo
  pricing : PricingInfo
  award_info : AwardInfo
  processing_info : ProcessingInfo
  eligibility : EligibilityInfo
  documents : DocumentsInfo
deriving DecidableEq

/-- The per-row body of `process_csv_data` (lines 1235-1343), as a function
of the row and of the wall-clock string `now` that
`datetime.now().isoformat()` returns at build time.  `none` models the
skipped row (`案件ID` missing) and the failed row (an `int(...)` call
raising). -/
def build_case_record (row : Row) (now : String) : Option CaseRecord :=
  match row.case_id with
  | none => none
  | some cid_text =>
    match pyIntParse cid_text with
    | none => none
    | some cid =>
      let countP := match row.document_count with
        | none => some (0 : Int)
        | some s => pyIntParse s
      let dlP := match row.downloaded_count with
        | none => some (0 : Int)
        | some s => pyIntParse s
      match countP, dlP with
      | some cnt, some dl =>
        let normalized_data := normalize_basic_data row
        let qualification_text := row.qualification.getD ""
        let qualifications := extract_qualifications (some qualification_text)
        let qualification_summary := get_qualification_summary qualifications
        some
          { case_id := cid
            case_name := row.case_name
            search_condition := row.search_condition
            bidding_format := row.bidding_format
            case_url := row.case_url
            organization :=
              ⟨row.org_name, row.org_location, normalized_data.prefecture,
                row.delivery_location⟩
            schedule :=
              ⟨normalized_data.announcement_date, normalized_data.bidding_date,
                normalized_data.document_submission_date,
                normalize_date row.briefing_date,
                normalized_data.award_announcement_date,
                normalized_data.award_date⟩
            qualifications :=
              ⟨qualification_text, qualifications, qualification_summary,
                row.business, normalized_data.business_types,
                normalized_data.business_type_names,
                normalized_data.business_type_codes⟩
            content := ⟨row.overview, row.remarks⟩
            pricing :=
              ⟨row.planned_price, normalized_data.normalized_planned_price,
                row.planned_unit_price, row.award_price,
                normalized_data.normalized_award_price, row.award_unit_price,
                normalized_data.normalized_price⟩
            award_info :=
              ⟨row.winning_company, row.winning_company_address,
                row.winning_reason, row.winning_score, row.award_remarks,
                row.bid_result_details, row.unsuccessful_bid⟩
            processing_info :=
              ⟨now, qualification_summary.confidence_score⟩
            eligibility := ⟨none, "LLM判定待ち", []⟩
            documents := ⟨row.document_directory, cnt, dl, row.documents_info⟩ }
      | _, _ => none

/-- Blank out the self-generated timestamp, leaving every other field. -/
def eraseProcessedAt (r : CaseRecord) : CaseRecord :=
  { r with processing_info := ⟨"", r.processing_info.qualification_confidence⟩ }

/-!
## Claim-side definitions

The following definitions transcribe wording of the specification (not the
source); theorems below compare them with the source embedding.
-/

/-- The seven `type` values of §3's `Requirement.kind`. -/
def sevenKinds : List String :=
  ["no_qualification_required", "unified_qualification",
   "regional_bureau_qualification", "local_government_qualification",
   "ministry_qualification", "industry_specific_qualification",
   "unknown_qualification"]

/-- The six kinds that have grouped sublists in the summary. -/
def sixGroupKinds : List String :=
  ["unified_qualification", "regional_bureau_qualification",
   "local_government_qualification", "ministry_qualification",
   "industry_specific_qualification", "unknown_qualification"]

/-- Spec wording: the non-empty lines of the raw input text. -/
def nonBlankLineCount (s : String) : Nat :=
  (((splitOnChar '\n' s.data).map pyStrip).filter (fun l => ¬ l = [])).length

/-- The non-blank stripped lines of the *whitespace-normalized* text — the
lines `extract_qualifications` actually iterates over. -/
def normalizedLines (t : Option String) : List (List Char) :=
  match t with
  | none => []
  | some s =>
    if s.data = [] then []
    else
      ((splitOnChar '\n' (normalize_qualification_text s).data).map
        pyStrip).filter (fun l => ¬ l = [])

/-- Spec wording: deduplicate preserving first-seen order (helper with the
set of already-seen codes). -/
def dedupFirstSeenAux (seen : List String) : List String → List String
  | [] => []
  | c :: rest =>
    if c ∈ seen then dedupFirstSeenAux seen rest
    else c :: dedupFirstSeenAux (c :: seen) rest

/-- Spec wording: deduplicate preserving first-seen order. -/
def dedupFirstSeen (l : List String) : List String :=
  dedupFirstSeenAux [] l

/-- The pre-dedup code list of a business-type cell (empty for an
absent/empty cell). -/
def preCodes (t : Option String) : List String :=
  match t with
  | none => []
  | some s => if s.data = [] then [] else normalize_business_types_pre s.data

/-- Spec wording of `NormalizePrice` (§4.2): strip separators and currency
glyphs, pick the multiplier word, remove it, scale the first number found. -/
def NormalizePriceSpec (s : String) : Option ℚ :=
  if s.data = [] then none
  else
    let stripped := removeChar '￥' (removeChar '円' (removeChar ',' s.data))
    let mult : ℚ :=
      if '万' ∈ stripped then 10000 else if '千' ∈ stripped then 1000 else 1
    let target :=
      if '万' ∈ stripped then removeChar '万' stripped
      else if '千' ∈ stripped then removeChar '千' stripped
      else stripped
    (firstNumber target).map (fun q => q * mult)

/-- The ordered pattern list of `normalize_date` (spec wording: "tries, in
order"). -/
def date_patterns : List (List PatItem) :=
  [datePat1, datePat2, datePat3, datePat4, datePat5]

/-- A trailing text that the date matcher cannot consume: empty, or starting
with a character that is neither a digit nor one of the five separator
glyphs of the date patterns. -/
def goodDateTail (t : List Char) : Prop :=
  match t with
  | [] => True
  | c :: _ =>
    pyIsDigit c = false ∧ ¬ c ∈ (['-', '/', '年', '月', '日'] : List Char)

/-!
## C9: the whitespace collapse leaves at most one line
-/

theorem collapseWsAux_mem (cs : List Char) : ∀ (b : Bool) (c : Char),
    c ∈ collapseWsAux b cs → c = ' ' ∨ pyIsSpace c = false := by
  induction cs with
  | nil => intro b c h; simp [collapseWsAux] at h
  | cons a rest ih =>
    intro b c h
    by_cases ha : pyIsSpace a
    · cases b with
      | true => simpa [collapseWsAux, ha] using ih true c (by simpa [collapseWsAux, ha] using h)
      | false =>
        simp only [collapseWsAux, ha, if_pos, if_true] at h
        rcases List.mem_cons.mp h with h1 | h2
        · exact Or.inl h1
        · exact ih true c h2
    · simp only [collapseWsAux, ha, if_neg, if_false] at h
      rcases List.mem_cons.mp h with h1 | h2
      · subst h1; exact Or.inr (by simpa using ha)
      · exact ih false c h2

theorem newline_not_mem_collapseWs (cs : List Char) :
    ¬ ('\n' : Char) ∈ collapseWs cs := by
  intro h
  rcases collapseWsAux_mem cs false '\n' h with h1 | h2
  · exact absurd h1 (by decide)
  · exact absurd h2 (by decide)

theorem splitOnChar_of_not_mem {sep : Char} {cs : List Char}
    (h : ¬ sep ∈ cs) : splitOnChar sep cs = [cs] := by
  induction cs with
  | nil => rfl
  | cons a rest ih =>
    have ha : ¬ a = sep := fun e => h (by simp [e])
    have hr : ¬ sep ∈ rest := fun e => h (List.mem_cons_of_mem _ e)
    simp only [splitOnChar, ih hr]
    simp [ha]

theorem extractLoop_length (ls : List (List Char)) : ∀ n : Nat,
    (extractLoop n ls).length =
      ((ls.map pyStrip).filter (fun l => ¬ l = [])).length := by
  induction ls with
  | nil => intro n; rfl
  | cons l rest ih =>
    intro n
    by_cases hl : pyStrip l = []
    · simp [extractLoop, hl, ih]
    · simp [extractLoop, hl, ih]

/-- C9: `normalize_qualification_text` collapses every whitespace run —
including line breaks — to a single space, so the subsequent split of
`extract_qualifications` sees no line break and the result has at most one
Requirement. -/
theorem extract_qualifications_at_most_one :
    (∀ t : Option String, (extract_qualifications t).length ≤ 1) ∧
    (∀ s : String, ¬ ('\n' : Char) ∈ (normalize_qualification_text s).data) := by
  have hnl : ∀ s : String, ¬ ('\n' : Char) ∈ (normalize_qualification_text s).data := by
    intro s
    unfold normalize_qualification_text
    by_cases hs : s.data = []
    · simp [hs]
    · simpa [hs] using newline_not_mem_collapseWs (pyStrip (replaceChar '　' ' ' s.data))
  refine ⟨?_, hnl⟩
  intro t
  match t with
  | none => simp [extract_qualifications]
  | some s =>
    by_cases hs : s.data = []
    · simp [extract_qualifications, hs]
    · have hsplit :
          splitOnChar '\n' (normalize_qualification_text s).data =
            [(normalize_qualification_text s).data] :=
        splitOnChar_of_not_mem (hnl s)
      simp only [extract_qualifications, hs, if_neg, if_false, hsplit]
      by_cases hl : pyStrip (normalize_qualification_text s).data = []
      · simp [extractLoop, hl]
      · simp [extractLoop, hl]

/-- Witness for C9 at a concrete two-line input. -/
theorem extract_qualifications_at_most_one_witness :
    (extract_qualifications (some "資格不要\n入札資格 A")).length ≤ 1 ∧
    ¬ ('\n' : Char) ∈ (normalize_qualification_text "a\nb").data :=
  ⟨extract_qualifications_at_most_one.1 _,
   extract_qualifications_at_most_one.2 _⟩

/-!
## C2: one Requirement per parsed line; total classification
-/

theorem parse_qualification_line_type_mem (line : String) (n : Nat) :
    (parse_qualification_line line n).type ∈ sevenKinds := by
  unfold parse_qualification_line
  by_cases h0 : containsSub "資格不要".data line.data = true
  · simp [h0, sevenKinds]
  · rcases hu : searchUnified line.data with _ | ⟨cat, lv⟩
    · rcases hr : searchRegional line.data with _ | ⟨org, cat, lv⟩
      · rcases hl : searchLocalGov line.data with _ | ⟨org, cat, lv⟩
        · rcases hm : searchMinistry line.data with _ | ⟨org, cat, lv⟩
          · rcases hi : searchIndustry line.data with _ | org
            · simp [h0, hu, hr, hl, hm, hi, sevenKinds]
            · simp [h0, hu, hr, hl, hm, hi, sevenKinds]
          · simp [h0, hu, hr, hl, hm, sevenKinds]
        · simp [h0, hu, hr, hl, sevenKinds]
      · simp [h0, hu, hr, sevenKinds]
    · simp [h0, hu, sevenKinds]

theorem extractLoop_mem (ls : List (List Char)) : ∀ (n : Nat) (r : Requirement),
    r ∈ extractLoop n ls →
    ∃ (l : String) (m : Nat), r = parse_qualification_line l m := by
  induction ls with
  | nil => intro n r h; simp [extractLoop] at h
  | cons l rest ih =>
    intro n r h
    by_cases hl : pyStrip l = []
    · exact ih (n + 1) r (by simpa [extractLoop, hl] using h)
    · simp only [extractLoop, hl, if_neg, if_false] at h
      rcases List.mem_cons.mp h with h1 | h2
      · exact ⟨⟨pyStrip l⟩, n, h1⟩
      · exact ih (n + 1) r h2

/-- C2 (amended): `extract_qualifications` yields exactly one Requirement
per non-blank line of the *whitespace-normalized* text (at most one line
survives normalization, per the C9 theorem); classification is total — a
line matched by none of the six patterns becomes `unknown_qualification`
with confidence 0.1, and every Requirement's type is one of the seven
defined values. -/
theorem extract_qualifications_per_line :
    (∀ t : Option String,
      (extract_qualifications t).length = (normalizedLines t).length)
    ∧ (∀ (t : Option String) (r : Requirement),
        r ∈ extract_qualifications t → r.type ∈ sevenKinds)
    ∧ (∀ (line : String) (n : Nat),
        containsSub "資格不要".data line.data = false →
        searchUnified line.data = none →
        searchRegional line.data = none →
        searchLocalGov line.data = none →
        searchMinistry line.data = none →
        searchIndustry line.data = none →
        parse_qualification_line line n =
          ⟨"unknown_qualification", none, none, some "unknown", none, none,
            line, n, 1 / 10⟩) := by
  refine ⟨?_, ?_, ?_⟩
  · intro t
    match t with
    | none => rfl
    | some s =>
      by_cases hs : s.data = []
      · simp [extract_qualifications, normalizedLines, hs]
      · simp [extract_qualifications, normalizedLines, hs, extractLoop_length]
  · intro t r h
    match t with
    | none => simp [extract_qualifications] at h
    | some s =>
      by_cases hs : s.data = []
      · simp [extract_qualifications, hs] at h
      · simp only [extract_qualifications, hs, if_neg, if_false] at h
        obtain ⟨l, m, rfl⟩ := extractLoop_mem _ _ _ h
        exact parse_qualification_line_type_mem l m
  · intro line n h0 hu hr hl hm hi
    simp [parse_qualification_line, h0, hu, hr, hl, hm, hi]

/-- C2 counterexample: the raw input has two non-empty lines, but
normalization collapses the line break, so only one Requirement is
produced — not one per input line. -/
theorem extract_qualifications_collapses_lines :
    (extract_qualifications (some "資格不要\n資格不要")).length = 1 ∧
    nonBlankLineCount "資格不要\n資格不要" = 2 := by
  exact ⟨by decide, by decide⟩

/-- Witness for the C2 theorem at concrete inputs. -/
theorem extract_qualifications_per_line_witness :
    (extract_qualifications (some "何か別のテキスト")).length =
      (normalizedLines (some "何か別のテキスト")).length ∧
    parse_qualification_line "何か別のテキスト" 1 =
      ⟨"unknown_qualification", none, none, some "unknown", none, none,
        "何か別のテキスト", 1, 1 / 10⟩ :=
  ⟨extract_qualifications_per_line.1 _,
   extract_qualifications_per_line.2.2 "何か別のテキスト" 1 (by decide)
     (by decide) (by decide) (by decide) (by decide) (by decide)⟩

/-!
## C3: the summary's kind-grouped sublists
-/

theorem count_filter_type (l : List Requirement) (r : Requirement) (k : String) :
    (l.filter (fun q => q.type == k)).count r =
      if r.type = k then l.count r else 0 := by
  by_cases h : r.type = k
  · rw [if_pos h, List.count_filter (by simp [h])]
  · have hnm : ¬ r ∈ l.filter (fun q => q.type == k) := by
      intro hm
      rcases List.mem_filter.mp hm with ⟨_, hb⟩
      exact h (by simpa using hb)
    rw [if_neg h, List.count_eq_zero.mpr hnm]

theorem count_filter_sixKinds (l : List Requirement) (r : Requirement) :
    (l.filter (fun q => q.type ∈ sixGroupKinds)).count r =
      if r.type ∈ sixGroupKinds then l.count r else 0 := by
  by_cases h : r.type ∈ sixGroupKinds
  · rw [if_pos h, List.count_filter (by simpa using h)]
  · have hnm : ¬ r ∈ l.filter (fun q => q.type ∈ sixGroupKinds) := by
      intro hm
      rcases List.mem_filter.mp hm with ⟨_, hb⟩
      exact h (by simpa using hb)
    rw [if_neg h, List.count_eq_zero.mpr hnm]

theorem filter_type_disjoint (l : List Requirement) {a b : String}
    (hab : ¬ a = b) :
    List.Disjoint (l.filter (fun q => q.type == a))
      (l.filter (fun q => q.type == b)) := by
  intro x hx hy
  rcases List.mem_filter.mp hx with ⟨_, ha⟩
  rcases List.mem_filter.mp hy with ⟨_, hb⟩
  exact hab ((by simpa using ha : x.type = a) ▸ (by simpa using hb : x.type = b))

theorem pairwise_disjoint_typeFilters (l : List Requirement)
    (ks : List String) (hk : ks.Nodup) :
    List.Pairwise List.Disjoint
      (ks.map (fun k => l.filter (fun q => q.type == k))) := by
  rw [List.pairwise_map]
  exact hk.imp (fun hab => filter_type_disjoint l hab)

/-- C3 (amended): `total_requirements` is the input length, and the six
kind-grouped sublists are pairwise disjoint with concatenation equal — as a
multiset — to the sublist of requirements whose kind is one of the six
grouped kinds; a `no_qualification_required` requirement (the seventh kind)
belongs to no group. -/
theorem get_qualification_summary_partition (quals : List Requirement) :
    (get_qualification_summary quals).total_requirements = quals.length ∧
    List.Pairwise List.Disjoint
      [(get_qualification_summary quals).unified_qualifications,
       (get_qualification_summary quals).regional_qualifications,
       (get_qualification_summary quals).local_qualifications,
       (get_qualification_summary quals).ministry_qualifications,
       (get_qualification_summary quals).industry_qualifications,
       (get_qualification_summary quals).unknown_qualifications] ∧
    (((get_qualification_summary quals).unified_qualifications ++
      (get_qualification_summary quals).regional_qualifications ++
      (get_qualification_summary quals).local_qualifications ++
      (get_qualification_summary quals).ministry_qualifications ++
      (get_qualification_summary quals).industry_qualifications ++
      (get_qualification_summary quals).unknown_qualifications : List Requirement) :
        Multiset Requirement) =
      ((quals.filter (fun q => q.type ∈ sixGroupKinds) : List Requirement) :
        Multiset Requirement) := by
  by_cases hq : quals = []
  · subst hq
    refine ⟨by simp [get_qualification_summary], ?_, by simp [get_qualification_summary]⟩
    simp [get_qualification_summary]
  · have hgroups := pairwise_disjoint_typeFilters quals sixGroupKinds
      (by simp [sixGroupKinds])
    refine ⟨by simp [get_qualification_summary, hq], ?_, ?_⟩
    · simpa [get_qualification_summary, hq, sixGroupKinds] using hgroups
    · rw [Multiset.coe_eq_coe]
      rw [List.perm_iff_count]
      intro r
      simp only [get_qualification_summary, hq, if_neg, if_false,
        List.count_append, count_filter_type, count_filter_sixKinds]
      by_cases hmem : r.type ∈ sixGroupKinds
      · rcases (by simpa [sixGroupKinds] using hmem :
            r.type = "unified_qualification" ∨
            r.type = "regional_bureau_qualification" ∨
            r.type = "local_government_qualification" ∨
            r.type = "ministry_qualification" ∨
            r.type = "industry_specific_qualification" ∨
            r.type = "unknown_qualification") with h | h | h | h | h | h <;>
          rw [h] <;> simp +decide [sixGroupKinds]
      · have hne := (by simpa [sixGroupKinds] using hmem :
          ¬ r.type = "unified_qualification" ∧
          ¬ r.type = "regional_bureau_qualification" ∧
          ¬ r.type = "local_government_qualification" ∧
          ¬ r.type = "ministry_qualification" ∧
          ¬ r.type = "industry_specific_qualification" ∧
          ¬ r.type = "unknown_qualification")
        obtain ⟨h1, h2, h3, h4, h5, h6⟩ := hne
        simp [h1, h2, h3, h4, h5, h6, hmem]

/-- C3 counterexample: a `no_qualification_required` requirement is counted
in `total_requirements` but appears in none of the six grouped sublists, so
their concatenation does not reproduce the input list. -/
theorem get_qualification_summary_drops_noqual :
    (get_qualification_summary [parse_qualification_line "資格不要" 1]).total_requirements
        = 1 ∧
    ((get_qualification_summary [parse_qualification_line "資格不要" 1]).unified_qualifications ++
     (get_qualification_summary [parse_qualification_line "資格不要" 1]).regional_qualifications ++
     (get_qualification_summary [parse_qualification_line "資格不要" 1]).local_qualifications ++
     (get_qualification_summary [parse_qualification_line "資格不要" 1]).ministry_qualifications ++
     (get_qualification_summary [parse_qualification_line "資格不要" 1]).industry_qualifications ++
     (get_qualification_summary [parse_qualification_line "資格不要" 1]).unknown_qualifications).length
        = 0 := by
  exact ⟨by decide, by decide⟩

/-- Witness for the C3 theorem at a concrete requirement list. -/
theorem get_qualification_summary_partition_witness :
    (get_qualification_summary
      [parse_qualification_line "全省庁統一資格 物品の製造 A" 1]).total_requirements = 1 :=
  (get_qualification_summary_partition
    [parse_qualification_line "全省庁統一資格 物品の製造 A" 1]).1.trans (by decide)

/-!
## C1: the eligibility decision policy (spec-modelled checker)
-/

/-- C1: the spec-modelled `CheckEligibility` follows the claimed policy —
no-qualification marker wins with a reason mentioning "no qualification
required"; an empty requirement list is ineligible with the unknown-
requirements reason; otherwise requirements with absent level codes are
skipped, any A/B/C-level requirement makes the case ineligible, else any
D/no-rank/rank-unknown requirement makes it eligible, else the
parse-failure fallback is ineligible. -/
theorem CheckEligibility_policy (reqs : List Requirement)
    (s : QualificationSummary) :
    (s.has_no_qualification_required = true →
      (CheckEligibility reqs s).is_eligible = true ∧
      containsSub "no qualification required".data
        (CheckEligibility reqs s).reason.data = true)
    ∧ (s.has_no_qualification_required = false → reqs = [] →
        (CheckEligibility reqs s).is_eligible = false ∧
        (CheckEligibility reqs s).reason = "qualification requirements unknown")
    ∧ (s.has_no_qualification_required = false → ¬ reqs = [] →
        (∃ r ∈ reqs, ∃ c ∈ ineligibleLevelCodes, r.level_normalized = some c) →
        (CheckEligibility reqs s).is_eligible = false)
    ∧ (s.has_no_qualification_required = false → ¬ reqs = [] →
        (∀ r ∈ reqs, ∀ c ∈ ineligibleLevelCodes, ¬ r.level_normalized = some c) →
        (∃ r ∈ reqs, ∃ c ∈ eligibleLevelCodes, r.level_normalized = some c) →
        (CheckEligibility reqs s).is_eligible = true)
    ∧ (s.has_no_qualification_required = false → ¬ reqs = [] →
        (∀ r ∈ reqs, ∀ c, r.level_normalized = some c →
          ¬ c ∈ ineligibleLevelCodes ∧ ¬ c ∈ eligibleLevelCodes) →
        (CheckEligibility reqs s).is_eligible = false ∧
        (CheckEligibility reqs s).reason = "could not parse qualification format") := by
  refine ⟨?_, ?_, ?_, ?_, ?_⟩
  · intro h
    unfold CheckEligibility
    rw [if_pos h]
    exact ⟨rfl, by decide⟩
  · intro h he
    simp [CheckEligibility, h, he]
  · intro h hne ⟨r, hr, c, hc, hlev⟩
    have hmem : r ∈ reqs.filter (hasLevelIn ineligibleLevelCodes) :=
      List.mem_filter.mpr ⟨hr, by simp [hasLevelIn, hlev, hc]⟩
    have hfil := List.ne_nil_of_mem hmem
    simp [CheckEligibility, h, hne, hfil]
  · intro h hne hno ⟨r, hr, c, hc, hlev⟩
    have hfil : reqs.filter (hasLevelIn ineligibleLevelCodes) = [] := by
      refine List.filter_eq_nil_iff.mpr (fun q hq hb => ?_)
      rcases hq' : q.level_normalized with _ | c'
      · simp [hasLevelIn, hq'] at hb
      · have hc' : c' ∈ ineligibleLevelCodes := by
          simpa [hasLevelIn, hq'] using hb
        exact hno q hq c' hc' hq'
    have hmem : r ∈ reqs.filter (hasLevelIn eligibleLevelCodes) :=
      List.mem_filter.mpr ⟨hr, by simp [hasLevelIn, hlev, hc]⟩
    have hfil2 := List.ne_nil_of_mem hmem
    simp [CheckEligibility, h, hne, hfil, hfil2]
  · intro h hne hno
    have hfil1 : reqs.filter (hasLevelIn ineligibleLevelCodes) = [] := by
      refine List.filter_eq_nil_iff.mpr (fun q hq hb => ?_)
      rcases hq' : q.level_normalized with _ | c'
      · simp [hasLevelIn, hq'] at hb
      · exact (hno q hq c' hq').1 (by simpa [hasLevelIn, hq'] using hb)
    have hfil2 : reqs.filter (hasLevelIn eligibleLevelCodes) = [] := by
      refine List.filter_eq_nil_iff.mpr (fun q hq hb => ?_)
      rcases hq' : q.level_normalized with _ | c'
      · simp [hasLevelIn, hq'] at hb
      · exact (hno q hq c' hq').2 (by simpa [hasLevelIn, hq'] using hb)
    simp [CheckEligibility, h, hne, hfil1, hfil2]

/-- Witness for C1: the spec's scenarios A (no qualification required),
B (rank A — ineligible) and C (rank D — eligible) at concrete inputs. -/
theorem CheckEligibility_policy_witness :
    (CheckEligibility [] ⟨0, true, [], [], [], [], [], [], ∅, ∅, 0⟩).is_eligible
        = true
    ∧ (CheckEligibility
        [⟨"unified_qualification", some "全省庁統一資格", some "物品の製造",
          some "manufacturing", some "A", some "level_a",
          "全省庁統一資格 物品の製造 A", 1, 95 / 100⟩]
        ⟨1, false, [], [], [], [], [], [], ∅, ∅, 95 / 100⟩).is_eligible = false
    ∧ (CheckEligibility
        [⟨"unified_qualification", some "全省庁統一資格", some "役務の提供",
          some "service_provision", some "D", some "level_d",
          "全省庁統一資格 役務の提供 D", 1, 95 / 100⟩]
        ⟨1, false, [], [], [], [], [], [], ∅, ∅, 95 / 100⟩).is_eligible = true :=
  ⟨((CheckEligibility_policy [] _).1 rfl).1,
   (CheckEligibility_policy _ _).2.2.1 rfl (by decide) (by decide),
   (CheckEligibility_policy _ _).2.2.2.1 rfl (by decide) (by decide) (by decide)⟩

/-!
## C6: price normalization
-/

/-- C6: `normalize_price` agrees with the spec's wording (strip separators
and currency glyphs, scale the first number by the multiplier word), and
the spec's three examples hold. -/
theorem normalize_price_spec_eq :
    (∀ s : String, normalize_price (some s) = NormalizePriceSpec s)
    ∧ normalize_price (some "1,500,000円") = some 1500000
    ∧ normalize_price (some "150万円") = some 1500000
    ∧ normalize_price none = none
    ∧ normalize_price (some "") = none := by
  have h1 : normalize_price (some "1,500,000円") = some ((1500000 : ℕ) : ℚ) :=
    rfl
  have h2 : normalize_price (some "150万円") =
      some (((150 : ℕ) : ℚ) * 10000) := rfl
  refine ⟨?_, by rw [h1]; norm_num, by rw [h2]; norm_num, rfl, rfl⟩
  intro s
  unfold normalize_price NormalizePriceSpec
  by_cases hs : s.data = []
  · simp [hs]
  · by_cases h1 : '万' ∈ removeChar '￥' (removeChar '円' (removeChar ',' s.data))
    · simp [hs, h1]
    · by_cases h2 : '千' ∈ removeChar '￥' (removeChar '円' (removeChar ',' s.data))
      · simp [hs, h1, h2]
      · simp [hs, h1, h2]

/-- Witness for the universally quantified part of the C6 theorem. -/
theorem normalize_price_spec_eq_witness :
    normalize_price (some "3千万円") = NormalizePriceSpec "3千万円" :=
  normalize_price_spec_eq.1 _

/-!
## C7: date normalization order and validity retry
-/

theorem tryDatePatterns_eq_head (cs : List Char) :
    tryDatePatterns cs =
      (date_patterns.filterMap (fun p => attemptDate p cs)).head? := by
  unfold tryDatePatterns date_patterns
  rcases h1 : attemptDate datePat1 cs with _ | r1 <;>
    rcases h2 : attemptDate datePat2 cs with _ | r2 <;>
      rcases h3 : attemptDate datePat3 cs with _ | r3 <;>
        rcases h4 : attemptDate datePat4 cs with _ | r4 <;>
          rcases h5 : attemptDate datePat5 cs with _ | r5 <;>
            simp [h1, h2, h3, h4, h5]

/-- C7: `normalize_date` strips the input and returns the first pattern (in
the fixed order `YYYY-M-D`, `YYYY/M/D`, `M/D/YYYY`, `M-D-YYYY`,
`YYYY年M月D日`) that both matches syntactically and builds a valid calendar
date — `attemptDate` assigns the year to the four-digit first group — and
the spec's examples hold, including the invalid-month retry ending in
`none`. -/
theorem normalize_date_first_valid :
    (∀ s : String, normalize_date (some s) =
      if s.data = [] then none
      else (date_patterns.filterMap
        (fun p => attemptDate p (pyStrip s.data))).head?)
    ∧ normalize_date (some "2024/03/05") = some "2024-03-05"
    ∧ normalize_date (some "2024-03-05") = some "2024-03-05"
    ∧ normalize_date (some "12-3-2024") = some "2024-12-03"
    ∧ normalize_date (some "2024/13/01") = none := by
  refine ⟨?_, by decide, by decide, by decide, by decide⟩
  intro s
  unfold normalize_date
  by_cases hs : s.data = []
  · simp [hs]
  · simp [hs, tryDatePatterns_eq_head]

/-- Witness for the universally quantified part of the C7 theorem. -/
theorem normalize_date_first_valid_witness :
    normalize_date (some "2024年3月5日") =
      if ("2024年3月5日" : String).data = [] then none
      else (date_patterns.filterMap
        (fun p => attemptDate p (pyStrip ("2024年3月5日" : String).data))).head? :=
  normalize_date_first_valid.1 _

/-!
## C8: business-type deduplication
-/

theorem lineNameCode_snd (l : List Char) : (lineNameCode l).2 = lineCode l := by
  unfold lineNameCode lineCode
  rcases h : findBusinessCode l with _ | p <;> simp [h]

theorem dedupBySeen_snd (ps : List (String × String)) : ∀ seen : List String,
    (dedupBySeen seen ps).map (fun p => p.2) =
      dedupFirstSeenAux seen (ps.map (fun p => p.2)) := by
  induction ps with
  | nil => intro seen; rfl
  | cons p rest ih =>
    intro seen
    by_cases h : p.2 ∈ seen
    · simp [dedupBySeen, dedupFirstSeenAux, h, ih]
    · simp [dedupBySeen, dedupFirstSeenAux, h, ih]

/-- C8 (amended): both functions map each non-blank line to the code of the
first containing table entry (default `B99`); the paired function
deduplicates by code preserving first-seen order, while
`normalize_business_types` — built with `list(set(...))` — keeps the same
set of codes in an unspecified iteration order; the spec's three-line
example pre-dedups to `[B05, B05, B04]` and the paired function returns
`[B05, B04]`. -/
theorem extract_business_types_dedup :
    (∀ t : Option String,
      (extract_business_types_with_codes t).2 = dedupFirstSeen (preCodes t))
    ∧ (∀ t : Option String,
        normalize_business_types t = (preCodes t).toFinset)
    ∧ normalize_business_types_pre ("ITサービス\nシステム開発\n建設・工事" : String).data
        = ["B05", "B05", "B04"]
    ∧ (extract_business_types_with_codes
        (some "ITサービス\nシステム開発\n建設・工事")).2 = ["B05", "B04"] := by
  refine ⟨?_, ?_, by decide, by decide⟩
  · intro t
    match t with
    | none => rfl
    | some s =>
      by_cases hs : s.data = []
      · simp [extract_business_types_with_codes, preCodes, hs, dedupFirstSeen,
          dedupFirstSeenAux]
      · simp only [extract_business_types_with_codes, preCodes, hs, if_neg,
          if_false, dedupFirstSeen]
        rw [dedupBySeen_snd, List.map_map]
        unfold normalize_business_types_pre
        congr 1
        exact List.map_congr_left (fun l _ => lineNameCode_snd l)
  · intro t
    match t with
    | none => rfl
    | some s =>
      by_cases hs : s.data = []
      · simp [normalize_business_types, preCodes, hs]
      · simp [normalize_business_types, preCodes, hs]

/-- C8 counterexample: `normalize_business_types` is a function of the
*set* of per-line codes alone (it returns `list(set(...))`), so the two
inputs below — which have the same code set but opposite first-seen
orders — get the same value, while first-seen-order deduplication demands
the two different lists. -/
theorem normalize_business_types_order_erased :
    normalize_business_types (some "ITサービス\n建設・工事") =
      normalize_business_types (some "建設・工事\nITサービス")
    ∧ dedupFirstSeen (preCodes (some "ITサービス\n建設・工事")) = ["B05", "B04"]
    ∧ dedupFirstSeen (preCodes (some "建設・工事\nITサービス")) = ["B04", "B05"]
    ∧ ((["B05", "B04"] : List String) == ["B04", "B05"]) = false := by
  exact ⟨by decide, by decide, by decide, by decide⟩

/-- Witness for the universally quantified parts of the C8 theorem. -/
theorem extract_business_types_dedup_witness :
    (extract_business_types_with_codes (some "役務\n測量")).2 =
      dedupFirstSeen (preCodes (some "役務\n測量")) ∧
    normalize_business_types (some "役務\n測量") =
      (preCodes (some "役務\n測量")).toFinset :=
  ⟨extract_business_types_dedup.1 _, extract_business_types_dedup.2.1 _⟩

/-!
## C4: record building and the self-generated timestamp
-/

/-- A concrete row: `案件ID` = "1", every other cell absent. -/
def row0 : Row :=
  ⟨some "1", none, none, none, none, none, none, none, none, none, none,
   none, none, none, none, none, none, none, none, none, none, none, none,
   none, none, none, none, none, none, none, none, none, none⟩

/-- The record built from `row0` at one fixed clock reading. -/
def caseRecordT0 : CaseRecord :=
  (build_case_record row0 "2025-01-01T00:00:00").get (by decide)

/-- C4 counterexample: the record embeds `datetime.now().isoformat()` into
`processing_info.processed_at`, so two builds of the same row at different
clock readings are not bit-identical. -/
theorem build_case_record_time_dependent :
    (build_case_record row0 "2025-01-01T00:00:00").map
        (fun r => r.processing_info.processed_at) = some "2025-01-01T00:00:00"
    ∧ (build_case_record row0 "2025-01-01T00:00:01").map
        (fun r => r.processing_info.processed_at) = some "2025-01-01T00:00:01"
    ∧ ((build_case_record row0 "2025-01-01T00:00:00") ==
        (build_case_record row0 "2025-01-01T00:00:01")) = false := by
  exact ⟨by decide, by decide, by decide⟩

/-- C4 (amended): the record is a deterministic function of the row *and*
the build-time clock reading; every field except
`processing_info.processed_at` depends on the row alone, and
`processed_at` is exactly the clock reading — so rebuilding the same row is
bit-identical only up to that self-generated timestamp. -/
theorem build_case_record_deterministic :
    (∀ (row : Row) (t₁ t₂ : String),
      (build_case_record row t₁).map eraseProcessedAt =
        (build_case_record row t₂).map eraseProcessedAt)
    ∧ (∀ (row : Row) (t : String) (r : CaseRecord),
        build_case_record row t = some r →
        r.processing_info.processed_at = t) := by
  constructor
  · intro row t₁ t₂
    unfold build_case_record
    cases hcid : row.case_id with
    | none => rfl
    | some cid_text =>
      dsimp only
      cases hp : pyIntParse cid_text with
      | none => rfl
      | some cid =>
        dsimp only
        cases hcount :
            (match row.document_count with
              | none => some (0 : Int)
              | some s => pyIntParse s) with
        | none => rfl
        | some cnt =>
          cases hdl :
              (match row.downloaded_count with
                | none => some (0 : Int)
                | some s => pyIntParse s) with
          | none => rfl
          | some dl => rfl
  · intro row t r
    unfold build_case_record
    cases hcid : row.case_id with
    | none => intro h; exact Option.noConfusion h
    | some cid_text =>
      dsimp only
      cases hp : pyIntParse cid_text with
      | none => intro h; exact Option.noConfusion h
      | some cid =>
        dsimp only
        cases hcount :
            (match row.document_count with
              | none => some (0 : Int)
              | some s => pyIntParse s) with
        | none => intro h; exact Option.noConfusion h
        | some cnt =>
          cases hdl :
              (match row.downloaded_count with
                | none => some (0 : Int)
                | some s => pyIntParse s) with
          | none => intro h; exact Option.noConfusion h
          | some dl =>
            intro h
            injection h with h'
            subst h'
            rfl

/-- Witness for the C4 theorem at `row0` and two clock readings. -/
theorem build_case_record_deterministic_witness :
    (build_case_record row0 "2025-01-01T00:00:00").map eraseProcessedAt =
      (build_case_record row0 "2025-01-01T00:00:01").map eraseProcessedAt
    ∧ caseRecordT0.processing_info.processed_at = "2025-01-01T00:00:00" :=
  ⟨build_case_record_deterministic.1 row0 _ _,
   build_case_record_deterministic.2 row0 _ caseRecordT0
     (Option.some_get _).symm⟩

/-!
## C5: pattern precedence in `parse_qualification_line`
-/

/-- C5 (amended): the patterns are attempted in the fixed source order with
first match winning, and the no-qualification literal is attempted *before*
the unified pattern — so a line matching the Unified pattern is classified
`unified_qualification` provided it does not also contain the
no-qualification marker `資格不要`, and such a line is never classified
`industry_specific_qualification` (the industry pattern comes later). -/
theorem parse_qualification_line_precedence :
    (∀ (line : String) (n : Nat),
      (searchUnified line.data).isSome = true →
      containsSub "資格不要".data line.data = false →
      (parse_qualification_line line n).type = "unified_qualification")
    ∧ (∀ (line : String) (n : Nat),
        (searchUnified line.data).isSome = true →
        ((parse_qualification_line line n).type ==
          "industry_specific_qualification") = false) := by
  constructor
  · intro line n hu h0
    rcases hu' : searchUnified line.data with _ | ⟨cat, lv⟩
    · rw [hu'] at hu; cases hu
    · simp [parse_qualification_line, h0, hu']
  · intro line n hu
    by_cases h0 : containsSub "資格不要".data line.data = true
    · simp [parse_qualification_line, h0]
    · rcases hu' : searchUnified line.data with _ | ⟨cat, lv⟩
      · rw [hu'] at hu; cases hu
      · simp [parse_qualification_line, h0, hu']

/-- C5 counterexample: this line matches the Unified pattern *and* the
Industry-association pattern, but it also contains the no-qualification
marker, which is attempted first — so it is classified
`no_qualification_required`, not `unified_qualification` as the claim
demands for every line matching both. -/
theorem parse_qualification_line_noqual_first :
    containsSub "資格不要".data
      ("全省庁統一資格 物品の製造 A 建設協会 資格不要" : String).data = true
    ∧ (searchUnified
        ("全省庁統一資格 物品の製造 A 建設協会 資格不要" : String).data).isSome = true
    ∧ (searchIndustry
        ("全省庁統一資格 物品の製造 A 建設協会 資格不要" : String).data).isSome = true
    ∧ (parse_qualification_line "全省庁統一資格 物品の製造 A 建設協会 資格不要" 1).type
        = "no_qualification_required"
    ∧ (("no_qualification_required" : String) == "unified_qualification")
        = false := by
  exact ⟨by decide, by decide, by decide, by decide, by decide⟩

/-- Witness for the C5 theorem at a concrete unified-qualification line. -/
theorem parse_qualification_line_precedence_witness :
    (parse_qualification_line "全省庁統一資格 物品の製造 A" 1).type
        = "unified_qualification"
    ∧ ((parse_qualification_line "全省庁統一資格 物品の製造 A" 1).type ==
        "industry_specific_qualification") = false :=
  ⟨parse_qualification_line_precedence.1 _ 1 (by decide) (by decide),
   parse_qualification_line_precedence.2 _ 1 (by decide)⟩

/-!
## C10: anchoring of `normalize_date` (`re.match` semantics)
-/

/-- The literal separators a date pattern may contain. -/
def dateSeps : List Char := ['-', '/', '年', '月', '日']

/-- Every literal item of the pattern is one of the five separator glyphs. -/
def litsIn (items : List PatItem) : Prop :=
  ∀ c : Char, PatItem.lit c ∈ items → c ∈ dateSeps

theorem goodDateTail_head {t : List Char} (ht : goodDateTail t) :
    ∀ c : Char, t.head? = some c → pyIsDigit c = false := by
  cases t with
  | nil => intro c h; cases h
  | cons a t' =>
    intro c h
    rw [(by injection h : a = c)] at ht
    exact ht.1

theorem takeWhile_digit_append {t : List Char}
    (ht : ∀ c : Char, t.head? = some c → pyIsDigit c = false) (s : List Char) :
    (s ++ t).takeWhile pyIsDigit = s.takeWhile pyIsDigit := by
  induction s with
  | nil =>
    cases t with
    | nil => rfl
    | cons c ts => simp [List.takeWhile_cons, ht c rfl]
  | cons a s' ih =>
    by_cases ha : pyIsDigit a <;> simp [List.takeWhile_cons, ha, ih]

theorem dropWhile_digit_append {t : List Char}
    (ht : ∀ c : Char, t.head? = some c → pyIsDigit c = false) (s : List Char) :
    (s ++ t).dropWhile pyIsDigit = s.dropWhile pyIsDigit ++ t := by
  induction s with
  | nil =>
    cases t with
    | nil => rfl
    | cons c ts => simp [List.dropWhile_cons, ht c rfl]
  | cons a s' ih =>
    by_cases ha : pyIsDigit a <;> simp [List.dropWhile_cons, ha, ih]

/-- Appending a tail that starts with neither a digit nor a separator glyph
never changes what a rigid date pattern matches: the anchored matcher
consumes only an input prefix, every failure is at a character the tail
cannot supply, and the final greedy digit group cannot extend into a
non-digit. -/
theorem runItems_append {t : List Char} (ht : goodDateTail t) :
    ∀ items : List PatItem, litsIn items →
    ∀ s : List Char, runItems items (s ++ t) = runItems items s := by
  have hthead := goodDateTail_head ht
  intro items
  induction items with
  | nil => intro _ s; rfl
  | cons it rest ih =>
    intro hlits s
    have hrest : litsIn rest := fun c hc => hlits c (List.mem_cons_of_mem _ hc)
    cases it with
    | lit c =>
      have hc : c ∈ dateSeps := hlits c (List.mem_cons_self _ _)
      cases s with
      | nil =>
        cases t with
        | nil => rfl
        | cons h' t' =>
          have hne : ¬ h' = c := fun e => ht.2 (e ▸ hc)
          simp [runItems, hne]
      | cons x xs =>
        by_cases hx : x = c
        · simp [runItems, hx, ih hrest xs]
        · simp [runItems, hx]
    | dFull lo hi =>
      simp only [runItems, takeWhile_digit_append hthead,
        dropWhile_digit_append hthead]
      by_cases hrange :
          lo ≤ (s.takeWhile pyIsDigit).length ∧
            (s.takeWhile pyIsDigit).length ≤ hi
      · simp [hrange, ih hrest]
      · simp [hrange]
    | dPre req cap =>
      simp only [runItems, takeWhile_digit_append hthead,
        dropWhile_digit_append hthead]
      by_cases hreq : req ≤ (s.takeWhile pyIsDigit).length
      · rw [if_pos hreq, if_pos hreq, ← List.append_assoc, ih hrest]
      · simp [hreq]

theorem litsIn_datePat1 : litsIn datePat1 := by
  intro c hc
  simp [datePat1] at hc
  rcases hc with rfl | rfl
  all_goals decide

theorem litsIn_datePat2 : litsIn datePat2 := by
  intro c hc
  simp [datePat2] at hc
  rcases hc with rfl | rfl
  all_goals decide

theorem litsIn_datePat3 : litsIn datePat3 := by
  intro c hc
  simp [datePat3] at hc
  rcases hc with rfl | rfl
  all_goals decide

theorem litsIn_datePat4 : litsIn datePat4 := by
  intro c hc
  simp [datePat4] at hc
  rcases hc with rfl | rfl
  all_goals decide

theorem litsIn_datePat5 : litsIn datePat5 := by
  intro c hc
  simp [datePat5] at hc
  rcases hc with rfl | rfl | rfl
  all_goals decide

theorem attemptDate_append {t : List Char} (ht : goodDateTail t)
    {items : List PatItem} (hlits : litsIn items) (s : List Char) :
    attemptDate items (s ++ t) = attemptDate items s := by
  unfold attemptDate
  rw [runItems_append ht items hlits s]

theorem tryDatePatterns_append {t : List Char} (ht : goodDateTail t)
    (s : List Char) : tryDatePatterns (s ++ t) = tryDatePatterns s := by
  unfold tryDatePatterns
  rw [attemptDate_append ht litsIn_datePat1 s,
    attemptDate_append ht litsIn_datePat2 s,
    attemptDate_append ht litsIn_datePat3 s,
    attemptDate_append ht litsIn_datePat4 s,
    attemptDate_append ht litsIn_datePat5 s]

theorem tryDatePatterns_nondigit {c : Char} (hc : pyIsDigit c = false)
    (s : List Char) : tryDatePatterns (c :: s) = none := by
  have k4 : ∀ rest : List PatItem,
      runItems (PatItem.dFull 4 4 :: rest) (c :: s) = none := by
    intro rest
    simp [runItems, List.takeWhile_cons, hc]
  have k1 : ∀ rest : List PatItem,
      runItems (PatItem.dFull 1 2 :: rest) (c :: s) = none := by
    intro rest
    simp [runItems, List.takeWhile_cons, hc]
  unfold tryDatePatterns
  simp [attemptDate, datePat1, datePat2, datePat3, datePat4, datePat5, k4, k1]

theorem pyStrip_cons_head {c : Char} (hc : pyIsSpace c = false)
    (s : List Char) : ∃ u : List Char, pyStrip (c :: s) = c :: u := by
  unfold pyStrip
  rw [List.dropWhile_cons_of_neg (by simp [hc]), List.reverse_cons,
    List.dropWhile_append]
  by_cases he : ((s.reverse.dropWhile pyIsSpace).isEmpty : Bool) = true
  · refine ⟨[], ?_⟩
    rw [if_pos he]
    simp [List.dropWhile_cons, hc]
  · refine ⟨(s.reverse.dropWhile pyIsSpace).reverse, ?_⟩
    rw [if_neg he, List.reverse_append]
    simp

/-- C10 (amended): after stripping surrounding whitespace a date is
recognized only at the start of the string — appending a tail whose first
character is neither a digit nor one of the pattern glyphs
`-`, `/`, `年`, `月`, `日` never changes the result of the pattern loop (in
particular a trailing time is ignored), while prepending any character that
is neither a digit nor whitespace makes the result absent.  (Appending a
*digit* can change the captured day group, and a prepended whitespace
character is removed by `strip` — see the counterexample.) -/
theorem normalize_date_anchored :
    (∀ s t : List Char, goodDateTail t →
      tryDatePatterns (s ++ t) = tryDatePatterns s)
    ∧ (∀ (c : Char) (s : List Char), pyIsDigit c = false →
        pyIsSpace c = false → normalize_date (some ⟨c :: s⟩) = none)
    ∧ normalize_date (some "2024-03-05 10:00") = some "2024-03-05" := by
  refine ⟨fun s t ht => tryDatePatterns_append ht s, ?_, by decide⟩
  intro c s hd hsp
  unfold normalize_date
  dsimp only
  rw [if_neg (by simp)]
  obtain ⟨u, hu⟩ := pyStrip_cons_head hsp s
  rw [hu, tryDatePatterns_nondigit hd u]

/-- C10 counterexample: appending the digit `0` to a recognized date makes
the day group `50`, so the result flips to `none` (trailing characters are
*not* always ignored), and a prepended space is stripped, so the result
stays a date (a preceding character does *not* always make the result
absent). -/
theorem normalize_date_boundary_cases :
    normalize_date (some "2024-3-5") = some "2024-03-05"
    ∧ normalize_date (some "2024-3-50") = none
    ∧ normalize_date (some " 2024-03-05") = some "2024-03-05" := by
  exact ⟨by decide, by decide, by decide⟩

/-- Witness for the C10 theorem at concrete inputs. -/
theorem normalize_date_anchored_witness :
    tryDatePatterns (("2024-03-05" : String).data ++ ("x" : String).data) =
      tryDatePatterns ("2024-03-05" : String).data
    ∧ normalize_date (some ⟨'x' :: ("2024-03-05" : String).data⟩) = none :=
  ⟨normalize_date_anchored.1 _ _ (by constructor <;> decide),
   normalize_date_anchored.2.1 'x' _ (by decide) (by decide)⟩

end ProcurementSpec
